import Mathlib

/-!
# Verification of the streetlevel tile reconstruction engines

Shallow embedding of the two tile engines of the `streetlevel` library:

* the Streetside quadtree cubemap engine
  (`streetlevel/streetside/streetside.py`), and
* the Street View grid equirectangular engine
  (`streetlevel/streetview/streetview.py`).

Pure address computation, list splitting and the recursive stitch are
translated directly from the Python source.  The network fetch and image
compose collaborators are kept abstract (function parameters / symbolic
image trees), matching the spec's description of them as external
collaborators.
-/

namespace Streetlevel

/-! ## Streetside: base-4 helpers

`to_base4` lives in `streetlevel/streetside/util.py`, which is not part of
the sources under verification; it is modelled from the spec.
-/

/-- The digits (most significant first) of `n` written in base 4. -/
def toBase4Digits (n : Nat) : List Nat :=
  if n < 4 then [n] else toBase4Digits (n / 4) ++ [n % 4]
decreasing_by exact Nat.div_lt_self (by omega) (by omega)

/-- The character for a base-4 digit (`0`..`3`). -/
def digitChar4 (d : Nat) : Char := Char.ofNat (48 + d)

/-- Modelled from the spec: `to_base4` (from `streetside/util.py`, absent from
`src/`) encodes an unsigned integer in base 4, most significant digit first,
with no padding ("encode the id in base 4"; the spec's round-trip property
"decoding the code back to base 10 yields the original id" pins down the
standard representation). -/
def to_base4 (n : Nat) : String := ⟨(toBase4Digits n).map digitChar4⟩

/-- Python's `str.rjust(width, fill)`: left-pad to `width` with `fill`;
strings already at least `width` long are returned unchanged. -/
def rjust (s : String) (width : Nat) (fill : Char) : String :=
  ⟨List.replicate (width - s.length) fill ++ s.data⟩

/-! ## Streetside: tile list generation (`_generate_tile_list`) -/

/-- One entry of a face's tile list: the dict
`{"face": face_id_base4, "subdiv": subdiv, "url": url}`. -/
structure SSTile where
  face : String
  subdiv : Nat
  url : String
  deriving Repr, DecidableEq

/-- Errors of the Streetside engine.  `invalidZoom` is the
`ValueError("Zoom can't be greater than 4")`; `typeError` is the `TypeError`
Python raises when `range(0, pow(4, zoom))` is built from a float (negative
`zoom` makes `pow(4, zoom)` a float); `fetchFailure` and `indexError` arise
while attaching downloaded tiles. -/
inductive SSError where
  | invalidZoom
  | typeError
  | fetchFailure
  | indexError
  deriving Repr, DecidableEq

/-- The tiles of face `faceId` (0-based): the inner loop of
`_generate_tile_list`. -/
def buildFace (panoidBase4 : String) (zoom : Nat) (faceId : Nat) : List SSTile :=
  let faceIdBase4 := rjust (to_base4 (faceId + 1)) 2 '0'
  (List.range (4 ^ zoom)).map fun subdiv =>
    let subdivBase4 := if zoom < 1 then "" else rjust (to_base4 subdiv) zoom '0'
    let tileKey := faceIdBase4 ++ subdivBase4
    { face := faceIdBase4, subdiv := subdiv,
      url := "https://t.ssl.ak.tiles.virtualearth.net/tiles/hs" ++ panoidBase4
             ++ tileKey ++ ".jpg?g=13716" }

/-- `_generate_tile_list` of the Streetside engine.  The Python function
returns a dict keyed `0..5` in insertion order; it is modelled as the list of
its six face tile lists.  `zoom` is an `Int` because the guard `zoom > 4`
and the float `pow(4, zoom)` behaviour for negative zoom are both visible. -/
def ss_generate_tile_list (panoid : Nat) (zoom : Int) : Except SSError (List (List SSTile)) :=
  if zoom > 4 then .error .invalidZoom
  else if zoom < 0 then .error .typeError
  else
    let panoidBase4 := rjust (to_base4 panoid) 16 '0'
    .ok ((List.range 6).map (buildFace panoidBase4 zoom.toNat))

/-! ## Streetside: downloading (`_download_tiles`)

The fetch collaborator `download_files_async` is external (spec §6): it is a
parameter `fetch`, returning `none` when a download raises. -/

/-- A tile after the download step attached its image bytes
(`tile["image"] = tiles[idx]`); bytes are abstracted as a `Nat`. -/
structure FTile where
  face : String
  subdiv : Nat
  url : String
  image : Nat
  deriving Repr, DecidableEq, Inhabited

/-- Attach fetched byte buffers to the tiles of one face by list position. -/
def attachImages (face : List SSTile) (bufs : List Nat) : List FTile :=
  face.zipWith (fun t b => { face := t.face, subdiv := t.subdiv, url := t.url, image := b }) bufs

/-- `_download_tiles`: face by face, fetch all of a face's tile URLs as one
batch and attach the results positionally.  A fetch that raises (`none`)
propagates; a batch shorter than the face makes `tiles[idx]` raise an
`IndexError`.  Either exception aborts the loop. -/
def ss_download_tiles (fetch : List String → Option (List Nat)) :
    List (List SSTile) → Except SSError (List (List FTile))
  | [] => .ok []
  | face :: rest =>
    match fetch (face.map (fun t => t.url)) with
    | none => .error .fetchFailure
    | some bufs =>
      if face.length ≤ bufs.length then
        match ss_download_tiles fetch rest with
        | .error e => .error e
        | .ok fetched => .ok (attachImages face bufs :: fetched)
      else .error .indexError

/-! ## Streetside: stitching (`_split_list`, `_stitch_four`, `_stitch_face`) -/

/-- The `TILE_SIZE` constant. -/
def TILE_SIZE : Nat := 256

mutual
/-- A symbolic image: either a decoded tile (`Image.open`, always 256×256
here), or a canvas `Image.new('RGB', (w, h))` together with its pastes. -/
inductive Img where
  | raw : Nat → Img
  | canvas : Nat → Nat → Pastes → Img
  deriving Repr, DecidableEq

/-- The ordered pastes applied to a canvas: each `cons img x y rest` is
`canvas.paste(im=img, box=(x, y))`. -/
inductive Pastes where
  | nil : Pastes
  | cons : Img → Nat → Nat → Pastes → Pastes
  deriving Repr, DecidableEq
end

/-- The pastes of `_stitch_four`: tile `idx` at
`(idx % 2 * TILE_SIZE, idx // 2 * TILE_SIZE)`. -/
def pasteFour : Nat → List FTile → Pastes
  | _, [] => .nil
  | idx, t :: rest =>
    .cons (.raw t.image) (idx % 2 * TILE_SIZE) (idx / 2 * TILE_SIZE) (pasteFour (idx + 1) rest)

/-- `_stitch_four`: paste `face[0:4]` onto a `TILE_SIZE*2` square canvas. -/
def _stitch_four (face : List FTile) : Img :=
  .canvas (TILE_SIZE * 2) (TILE_SIZE * 2) (pasteFour 0 (face.take 4))

/-- `_split_list`: `[list_[i:i+size] for i in range(0, len(list_), size)]`.
(Python raises `ValueError` for `size = 0`; every call site uses a positive
size, and the model returns `[]` there.) -/
def _split_list (l : List α) (size : Nat) : List (List α) :=
  if size = 0 then []
  else if l.isEmpty then []
  else l.take size :: _split_list (l.drop size) size
termination_by l.length
decreasing_by
  rename_i hsz hne
  simp [List.isEmpty_iff] at hne
  have : 0 < l.length := List.length_pos.mpr hne
  simp [List.length_drop]; omega

/-- `_stitch_face`: a face of at most 4 tiles goes to `_stitch_four`; a
larger face is split into 4 contiguous chunks of `len // 4` tiles, each
recursively stitched and pasted top-left / top-right / bottom-left /
bottom-right. -/
def _stitch_face (face : List FTile) : Img :=
  if face.length ≤ 4 then _stitch_four face
  else
    let gridSize := Nat.sqrt face.length
    let stitchedTileSize := gridSize / 2 * TILE_SIZE
    let split := _split_list face (face.length / 4)
    .canvas (stitchedTileSize * 2) (stitchedTileSize * 2)
      (.cons (_stitch_face (split.getD 0 [])) 0 0
      (.cons (_stitch_face (split.getD 1 [])) stitchedTileSize 0
      (.cons (_stitch_face (split.getD 2 [])) 0 stitchedTileSize
      (.cons (_stitch_face (split.getD 3 [])) stitchedTileSize stitchedTileSize .nil))))
termination_by face.length
decreasing_by
  all_goals
    rename_i hgt
    have key : ∀ (l : List FTile) (s : Nat), ∀ c ∈ _split_list l s, c.length ≤ s := by
      intro l s
      induction l, s using _split_list.induct with
      | case1 l => intro c hc; rw [_split_list, if_pos rfl] at hc; simp at hc
      | case2 l s hsz hne =>
        intro c hc; rw [_split_list, if_neg hsz, if_pos hne] at hc; simp at hc
      | case3 l s hsz hne ih =>
        intro c hc
        rw [_split_list, if_neg hsz, if_neg hne] at hc
        rcases List.mem_cons.mp hc with h' | h'
        · subst h'; simp
        · exact ih c h'
    have hb : ∀ i, ((_split_list face (face.length / 4)).getD i []).length ≤ face.length / 4 := by
      intro i
      by_cases h : i < (_split_list face (face.length / 4)).length
      · rw [List.getD_eq_getElem _ _ h]; exact key _ _ _ (List.getElem_mem h)
      · rw [List.getD_eq_default _ _ (by omega)]; simp
    refine lt_of_le_of_lt (hb _) ?_
    exact Nat.div_lt_self (by omega) (by omega)

/-! ## Streetside: panorama assembly (`_stitch_panorama`, `get_panorama`) -/

/-- The possible outputs of the cubemap compose collaborator
`stitch_cubemap_faces`: one composed image or the list of six faces. -/
inductive SSOutput where
  | one : Img → SSOutput
  | six : List Img → SSOutput
  deriving Repr, DecidableEq

/-- `_stitch_panorama`: at zoom 0 (one tile per face) each face image is the
decoded tile itself, otherwise each face is `_stitch_face`d; the six face
images and the face side length go to the external compose collaborator
(parameter `compose`, standing for `stitch_cubemap_faces` with its stitching
method already applied). -/
def ss_stitch_panorama (compose : List Img → Nat → SSOutput)
    (faces : List (List FTile)) : SSOutput :=
  let fullTileSize := Nat.sqrt (faces.getD 1 []).length * TILE_SIZE
  let stitchedFaces :=
    if (faces.getD 1 []).length = 1 then
      (List.range 6).map fun i => Img.raw ((faces.getD i []).getD 0 default).image
    else
      (List.range 6).map fun i => _stitch_face (faces.getD i [])
  compose stitchedFaces fullTileSize

/-- The metadata a `StreetsidePanorama` contributes to `get_panorama`. -/
structure SSPano where
  id : Nat
  maxZoom : Int
  deriving Repr, DecidableEq

/-- The address-generation stage of Streetside `get_panorama`:
`zoom = max(0, min(zoom, pano.max_zoom))` followed by
`_generate_tile_list(pano.id, zoom)`. -/
def ss_get_panorama_tiles (pano : SSPano) (zoom : Int) : Except SSError (List (List SSTile)) :=
  ss_generate_tile_list pano.id (max 0 (min zoom pano.maxZoom))

/-- Streetside `get_panorama` end to end: clamp the zoom, generate the tile
list, download all tiles, stitch. -/
def ss_get_panorama (fetch : List String → Option (List Nat))
    (compose : List Img → Nat → SSOutput)
    (pano : SSPano) (zoom : Int) : Except SSError SSOutput := do
  let faces ← ss_get_panorama_tiles pano zoom
  let fetched ← ss_download_tiles fetch faces
  pure (ss_stitch_panorama compose fetched)

/-! ## Street View: the grid equirectangular engine -/

/-- `streetlevel.dataclasses.Size`. -/
structure Size where
  x : Nat
  y : Nat
  deriving Repr, DecidableEq

/-- `streetlevel.dataclasses.Tile`: an (x, y) grid coordinate plus URL. -/
structure Tile where
  x : Nat
  y : Nat
  url : String
  deriving Repr, DecidableEq

/-- The metadata a `StreetViewPanorama` contributes to `get_panorama`. -/
structure SVPano where
  id : String
  imageSizes : List Size
  tileSize : Size
  deriving Repr, DecidableEq

/-- Errors of the Street View engine.  `invalidState` is the
`ValueError("pano.image_sizes is None.")`; `indexError` is an out-of-range
`pano.image_sizes[zoom]`; `zeroDivision` is Python's division by a zero tile
dimension; `fetchFailure` and `shortBatch` arise while downloading. -/
inductive SVError where
  | invalidState
  | indexError
  | zeroDivision
  | fetchFailure
  | shortBatch
  deriving Repr, DecidableEq

/-- `math.ceil(a / b)` for nonnegative integers (exact rational ceiling). -/
def ceilDiv (a b : Nat) : Nat := (a + b - 1) / b

/-- The first-party tile URL template
`https://cbk0.google.com/cbk?output=tile&panoid={0:}&zoom={3:}&x={1:}&y={2:}`
with its format arguments substituted. -/
def IMAGE_URL (panoid : String) (x y : Nat) (zoom : Nat) : String :=
  "https://cbk0.google.com/cbk?output=tile&panoid=" ++ panoid
    ++ "&zoom=" ++ toString zoom ++ "&x=" ++ toString x ++ "&y=" ++ toString y

/-- The third-party tile URL template
`https://lh3.ggpht.com/p/{0:}=x{1:}-y{2:}-z{3:}` with its format arguments
substituted. -/
def THIRD_PARTY_IMAGE_URL (panoid : String) (x y : Nat) (zoom : Nat) : String :=
  "https://lh3.ggpht.com/p/" ++ panoid
    ++ "=x" ++ toString x ++ "-y" ++ toString y ++ "-z" ++ toString zoom

/-- Street View `_generate_tile_list`.  The predicate `is_third_party_panoid`
is an external collaborator (spec §4.2), passed as the parameter `isThird`.
`itertools.product(range(cols), range(rows))` enumerates the first component
outermost, so all `y` for `x = 0` come first. -/
def sv_generate_tile_list (isThird : String → Bool) (pano : SVPano) (zoom : Nat) :
    Except SVError (List Tile) := do
  let imgSize ← match pano.imageSizes.get? zoom with
    | some s => pure s
    | none => .error .indexError
  let tileWidth := pano.tileSize.x
  let tileHeight := pano.tileSize.y
  if tileWidth = 0 ∨ tileHeight = 0 then .error .zeroDivision
  else
    let cols := ceilDiv imgSize.x tileWidth
    let rows := ceilDiv imgSize.y tileHeight
    let urlToUse := if isThird pano.id then THIRD_PARTY_IMAGE_URL else IMAGE_URL
    let coords := (List.range cols).flatMap fun x => (List.range rows).map fun y => (x, y)
    pure (coords.map fun c => { x := c.1, y := c.2, url := urlToUse pano.id c.1 c.2 zoom })

/-- `_validate_get_panorama_params`: fail when the image-size table is empty
(Python: `None` or `[]`, both falsy), else clamp the requested zoom to
`[0, len(pano.image_sizes) - 1]`. -/
def sv_validate_get_panorama_params (pano : SVPano) (zoom : Int) : Except SVError Nat :=
  if pano.imageSizes.isEmpty then .error .invalidState
  else .ok (max 0 (min zoom ((pano.imageSizes.length : Int) - 1))).toNat

/-- Modelled from the spec: `get_equirectangular_panorama`
(`streetlevel/util.py`, absent from `src/`) — "All tiles are fetched in one
batch" and each decoded tile is pasted "at pixel offset
(x × tile_width, y × tile_height) into a canvas sized to the panorama's
declared (width, height)"; a batch that raises, or returns fewer results
than requested URLs, aborts the reconstruction. -/
def get_equirectangular_panorama (fetch : List String → Option (List Nat))
    (width height : Nat) (tileSize : Size) (tiles : List Tile) : Except SVError Img :=
  match fetch (tiles.map fun t => t.url) with
  | none => .error .fetchFailure
  | some bufs =>
    if tiles.length ≤ bufs.length then
      .ok (.canvas width height (pasteGrid tileSize (tiles.zip bufs)))
    else .error .shortBatch
where
  /-- Paste each decoded tile at `(x * tile_width, y * tile_height)`. -/
  pasteGrid (tileSize : Size) : List (Tile × Nat) → Pastes
    | [] => .nil
    | (t, b) :: rest => .cons (.raw b) (t.x * tileSize.x) (t.y * tileSize.y) (pasteGrid tileSize rest)

/-- Street View `get_panorama` end to end: validate/clamp the zoom, generate
the tile list, fetch and compose. -/
def sv_get_panorama (isThird : String → Bool) (fetch : List String → Option (List Nat))
    (pano : SVPano) (zoom : Int) : Except SVError Img := do
  let z ← sv_validate_get_panorama_params pano zoom
  let imgSize ← match pano.imageSizes.get? z with
    | some s => pure s
    | none => .error .indexError
  let tiles ← sv_generate_tile_list isThird pano z
  get_equirectangular_panorama fetch imgSize.x imgSize.y pano.tileSize tiles

/-! ## Observations on symbolic images and fetch results -/

/-- Pixel width of a symbolic image (decoded tiles are 256×256). -/
def imgWidth : Img → Nat
  | .raw _ => TILE_SIZE
  | .canvas w _ _ => w

/-- Pixel height of a symbolic image. -/
def imgHeight : Img → Nat
  | .raw _ => TILE_SIZE
  | .canvas _ h _ => h

mutual
/-- Nesting depth of canvases in a symbolic image: the number of stitch
levels used to build it. -/
def imgDepth : Img → Nat
  | .raw _ => 0
  | .canvas _ _ ps => 1 + pastesDepth ps

/-- Largest depth among the pasted images. -/
def pastesDepth : Pastes → Nat
  | .nil => 0
  | .cons i _ _ rest => max (imgDepth i) (pastesDepth rest)
end

/-- Decode a base-4 digit string back to a number (the spec's
"decoding the code back to base 10"). -/
def fromBase4 (s : String) : Nat :=
  s.data.foldl (fun a c => a * 4 + (c.toNat - 48)) 0

/-- A failing batch-fetch outcome for `n` requested URLs: the fetch raised,
or returned fewer results than requested. -/
def badFetch (r : Option (List Nat)) (n : Nat) : Prop :=
  r = none ∨ ∃ bufs, r = some bufs ∧ bufs.length < n

/-- A concrete Street View panorama used by witnesses: one 512×256 image
level with 256×256 tiles. -/
def svPanoEx : SVPano := { id := "p", imageSizes := [⟨512, 256⟩], tileSize := ⟨256, 256⟩ }

/-! ## Helper lemmas on `_split_list` -/

/-- Splitting with a positive size and concatenating the chunks restores the
original list. -/
theorem split_list_flatten {α : Type} (l : List α) (s : Nat) (hs : s ≠ 0) :
    (_split_list l s).flatten = l := by
  induction l, s using _split_list.induct with
  | case1 l => exact absurd rfl hs
  | case2 l s hsz hne =>
    rw [_split_list, if_neg hsz, if_pos hne]
    rw [List.isEmpty_iff] at hne
    simp [hne]
  | case3 l s hsz hne ih =>
    rw [_split_list, if_neg hsz, if_neg hne]
    simp [ih hs, List.take_append_drop]

/-- Every chunk produced by `_split_list` has length at most the chunk size. -/
theorem split_list_chunk_le {α : Type} (l : List α) (s : Nat) :
    ∀ c ∈ _split_list l s, c.length ≤ s := by
  induction l, s using _split_list.induct with
  | case1 l => intro c hc; rw [_split_list, if_pos rfl] at hc; simp at hc
  | case2 l s hsz hne =>
    intro c hc; rw [_split_list, if_neg hsz, if_pos hne] at hc; simp at hc
  | case3 l s hsz hne ih =>
    intro c hc
    rw [_split_list, if_neg hsz, if_neg hne] at hc
    rcases List.mem_cons.mp hc with h' | h'
    · subst h'; simp
    · exact ih c h'

/-- Every chunk except possibly the last has length exactly the chunk size. -/
theorem split_list_dropLast_len {α : Type} (l : List α) (s : Nat) :
    ∀ c ∈ (_split_list l s).dropLast, c.length = s := by
  induction l, s using _split_list.induct with
  | case1 l => intro c hc; rw [_split_list, if_pos rfl] at hc; simp at hc
  | case2 l s hsz hne =>
    intro c hc; rw [_split_list, if_neg hsz, if_pos hne] at hc; simp at hc
  | case3 l s hsz hne ih =>
    intro c hc
    rw [_split_list, if_neg hsz, if_neg hne] at hc
    match hrest : _split_list (l.drop s) s with
    | [] => rw [hrest, List.dropLast_single] at hc; simp at hc
    | r :: rs =>
      rw [hrest, List.dropLast_cons₂] at hc
      rcases List.mem_cons.mp hc with h' | h'
      · subst h'
        have hdrop : l.drop s ≠ [] := by
          intro hd
          rw [_split_list] at hrest
          rw [if_neg hsz, if_pos (by simp [hd])] at hrest
          exact absurd hrest (by simp)
        have : s < l.length := by
          have := List.length_pos.mpr hdrop
          rw [List.length_drop] at this
          omega
        simp [List.length_take]; omega
      · rw [← hrest] at h'; exact ih c h'

/-- Splitting a list of length `4 * s` (with `0 < s`) yields exactly the four
contiguous chunks of length `s`. -/
theorem split_list_quad {α : Type} (l : List α) (s : Nat) (hs : 0 < s)
    (hlen : l.length = 4 * s) :
    _split_list l s =
      [l.take s, (l.drop s).take s, ((l.drop s).drop s).take s,
        ((l.drop s).drop s).drop s] := by
  have h0 : ¬ (s = 0) := by omega
  have e1 : (l.drop s).length = 3 * s := by rw [List.length_drop]; omega
  have e2 : ((l.drop s).drop s).length = 2 * s := by rw [List.length_drop, e1]; omega
  have e3 : (((l.drop s).drop s).drop s).length = s := by rw [List.length_drop, e2]; omega
  have e4 : ((((l.drop s).drop s).drop s).drop s).length = 0 := by
    rw [List.length_drop, e3]; omega
  have ne1 : ¬ (l.isEmpty = true) := by
    rw [List.isEmpty_iff]; intro h; rw [h] at hlen; simp at hlen; omega
  have ne2 : ¬ ((l.drop s).isEmpty = true) := by
    rw [List.isEmpty_iff]; intro h; rw [h] at e1; simp at e1; omega
  have ne3 : ¬ (((l.drop s).drop s).isEmpty = true) := by
    rw [List.isEmpty_iff]; intro h; rw [h] at e2; simp at e2; omega
  have ne4 : ¬ ((((l.drop s).drop s).drop s).isEmpty = true) := by
    rw [List.isEmpty_iff]; intro h; rw [h] at e3; simp at e3; omega
  have he5 : ((((l.drop s).drop s).drop s).drop s).isEmpty = true := by
    rw [List.isEmpty_iff, ← List.length_eq_zero]; omega
  rw [_split_list, if_neg h0, if_neg ne1]
  rw [_split_list, if_neg h0, if_neg ne2]
  rw [_split_list, if_neg h0, if_neg ne3]
  rw [_split_list, if_neg h0, if_neg ne4]
  rw [_split_list, if_neg h0, if_pos he5]
  have ht : (((l.drop s).drop s).drop s).take s = ((l.drop s).drop s).drop s := by
    apply List.take_of_length_le; omega
  rw [ht]

/-! ## C9: the list-splitting helper -/

/-- C9: for every list and positive chunk size, `_split_list` partitions the
list into contiguous chunks in order: all chunks except possibly the last
have length exactly `s`, no chunk exceeds `s`, and concatenation restores the
list; for a list of `4^k` elements split with size `4^(k-1)` there are
exactly 4 chunks, each of length `4^(k-1)`. -/
theorem claim_C9 {α : Type} (l : List α) (s : Nat) (hs : 0 < s) :
    (_split_list l s).flatten = l
    ∧ (∀ c ∈ (_split_list l s).dropLast, c.length = s)
    ∧ (∀ c ∈ _split_list l s, c.length ≤ s)
    ∧ (∀ k : Nat, 1 ≤ k → l.length = 4 ^ k → s = 4 ^ (k - 1) →
        (_split_list l s).length = 4 ∧ ∀ c ∈ _split_list l s, c.length = s) := by
  refine ⟨split_list_flatten l s (by omega), split_list_dropLast_len l s,
    split_list_chunk_le l s, ?_⟩
  intro k hk hlen hsk
  have hlen' : l.length = 4 * s := by
    have hpow : 4 ^ k = 4 * 4 ^ (k - 1) := by
      conv_lhs => rw [show k = 1 + (k - 1) by omega]
      rw [pow_add, pow_one]
    rw [hlen, hsk, hpow]
  rw [split_list_quad l s hs hlen']
  refine ⟨rfl, ?_⟩
  intro c hc
  have h1 : (l.drop s).length = 3 * s := by rw [List.length_drop]; omega
  have h2 : ((l.drop s).drop s).length = 2 * s := by rw [List.length_drop, h1]; omega
  have h3 : (((l.drop s).drop s).drop s).length = s := by rw [List.length_drop, h2]; omega
  simp only [List.mem_cons, List.not_mem_nil, or_false] at hc
  rcases hc with hc | hc | hc | hc
  · subst hc; rw [List.length_take]; omega
  · subst hc; rw [List.length_take, h1]; omega
  · subst hc; rw [List.length_take, h2]; omega
  · subst hc; exact h3

/-- C9 witness: splitting the list `0..15` with chunk size 4. -/
theorem claim_C9_witness :
    (_split_list (List.range 16) 4).flatten = List.range 16
    ∧ (∀ c ∈ (_split_list (List.range 16) 4).dropLast, c.length = 4)
    ∧ (∀ c ∈ _split_list (List.range 16) 4, c.length ≤ 4)
    ∧ (∀ k : Nat, 1 ≤ k → (List.range 16).length = 4 ^ k → 4 = 4 ^ (k - 1) →
        (_split_list (List.range 16) 4).length = 4
        ∧ ∀ c ∈ _split_list (List.range 16) 4, c.length = 4) :=
  claim_C9 (List.range 16) 4 (by decide)

/-! ## C10: determinism of tile-list generation -/

/-- C10: tile-list generation is deterministic in both engines — equal
inputs give identical tile lists (same coordinates and URL strings in the
same order). -/
theorem claim_C10 (p1 p2 : Nat) (z1 z2 : Int) (isThird : String → Bool)
    (sv1 sv2 : SVPano) (w1 w2 : Nat)
    (hp : p1 = p2) (hz : z1 = z2) (hsv : sv1 = sv2) (hw : w1 = w2) :
    ss_generate_tile_list p1 z1 = ss_generate_tile_list p2 z2
    ∧ sv_generate_tile_list isThird sv1 w1 = sv_generate_tile_list isThird sv2 w2 := by
  subst hp; subst hz; subst hsv; subst hw
  exact ⟨rfl, rfl⟩

/-- C10 witness at concrete inputs. -/
theorem claim_C10_witness :
    ss_generate_tile_list 3 1 = ss_generate_tile_list 3 1
    ∧ sv_generate_tile_list (fun _ => false) ⟨"p", [⟨512, 256⟩], ⟨256, 256⟩⟩ 0
      = sv_generate_tile_list (fun _ => false) ⟨"p", [⟨512, 256⟩], ⟨256, 256⟩⟩ 0 :=
  claim_C10 3 3 1 1 (fun _ => false)
    ⟨"p", [⟨512, 256⟩], ⟨256, 256⟩⟩ ⟨"p", [⟨512, 256⟩], ⟨256, 256⟩⟩ 0 0 rfl rfl rfl rfl

/-! ## C4: zoom validation of the cubemap tile-list generation

The claim states that `_generate_tile_list` fails with InvalidZoom for every
zoom outside `[0, 4]`.  The code only raises
`ValueError("Zoom can't be greater than 4")` when `zoom > 4`; for a negative
zoom it instead crashes with a `TypeError` (from
`range(0, pow(4, zoom))` on a float), which is not the InvalidZoom error. -/

/-- C4 counterexample: at zoom `-1` the generator does not fail with the
InvalidZoom error (it fails with a `TypeError` instead). -/
theorem claim_C4_counterexample :
    ss_generate_tile_list 0 (-1) ≠ Except.error SSError.invalidZoom
    ∧ ss_generate_tile_list 0 (-1) = Except.error SSError.typeError := by
  have h : ss_generate_tile_list 0 (-1) = Except.error SSError.typeError := rfl
  refine ⟨?_, h⟩
  rw [h]
  intro hx
  injection hx with h2
  exact absurd h2 (by decide)

/-- C4 (amended): the generator fails with InvalidZoom exactly when the zoom
exceeds 4; for zoom in `[0, 4]` it raises no error; for negative zoom it
fails, but with a TypeError, not InvalidZoom. -/
theorem claim_C4 (p : Nat) (z : Int) :
    (4 < z → ss_generate_tile_list p z = .error .invalidZoom)
    ∧ (0 ≤ z → z ≤ 4 → ∃ faces, ss_generate_tile_list p z = .ok faces)
    ∧ (z < 0 → ss_generate_tile_list p z = .error .typeError) := by
  refine ⟨fun h => ?_, fun h0 h4 => ?_, fun h => ?_⟩
  · rw [ss_generate_tile_list, if_pos h]
  · rw [ss_generate_tile_list, if_neg (by omega), if_neg (by omega)]
    exact ⟨_, rfl⟩
  · rw [ss_generate_tile_list, if_neg (by omega), if_pos h]

/-- C4 witness: zoom 5 gives the InvalidZoom error, zoom 0 succeeds. -/
theorem claim_C4_witness :
    ss_generate_tile_list 0 5 = .error .invalidZoom
    ∧ ∃ faces, ss_generate_tile_list 0 0 = .ok faces :=
  ⟨(claim_C4 0 5).1 (by decide), (claim_C4 0 0).2.1 (by decide) (by decide)⟩

/-! ## C5: zoom clamping in Streetside `get_panorama` -/

/-- C5: `get_panorama` clamps the requested zoom to `[0, max_zoom]` before
address generation: two requests whose zooms clamp to the same value produce
the same tile list, the clamped request never fails, and with `max_zoom = 3`
a request for zoom 10 produces the same tile list as a request for zoom 3. -/
theorem claim_C5 (pano : SSPano) (z1 z2 : Int)
    (hm0 : 0 ≤ pano.maxZoom) (hm4 : pano.maxZoom ≤ 4)
    (hc : max 0 (min z1 pano.maxZoom) = max 0 (min z2 pano.maxZoom)) :
    ss_get_panorama_tiles pano z1 = ss_get_panorama_tiles pano z2
    ∧ (∃ faces, ss_get_panorama_tiles pano z1 = .ok faces)
    ∧ (pano.maxZoom = 3 → ss_get_panorama_tiles pano 10 = ss_get_panorama_tiles pano 3) := by
  refine ⟨?_, ?_, ?_⟩
  · unfold ss_get_panorama_tiles
    rw [hc]
  · unfold ss_get_panorama_tiles
    rw [ss_generate_tile_list, if_neg (by omega), if_neg (by omega)]
    exact ⟨_, rfl⟩
  · intro h3
    unfold ss_get_panorama_tiles
    have heq : max 0 (min 10 pano.maxZoom) = max 0 (min 3 pano.maxZoom) := by
      rw [h3]; omega
    rw [heq]

/-- C5 witness: a panorama with `max_zoom = 3`, requested zooms 10 and 3. -/
theorem claim_C5_witness :
    ss_get_panorama_tiles ⟨7, 3⟩ 10 = ss_get_panorama_tiles ⟨7, 3⟩ 3
    ∧ (∃ faces, ss_get_panorama_tiles ⟨7, 3⟩ 10 = .ok faces)
    ∧ ((⟨7, 3⟩ : SSPano).maxZoom = 3 →
        ss_get_panorama_tiles ⟨7, 3⟩ 10 = ss_get_panorama_tiles ⟨7, 3⟩ 3) :=
  claim_C5 ⟨7, 3⟩ 10 3 (by decide) (by decide) (by decide)

/-! ## C7: validation of the grid engine -/

/-- The tile-list generator can only fail with an IndexError or a
ZeroDivisionError, never with InvalidState. -/
theorem sv_generate_error_cases (isThird : String → Bool) (pano : SVPano) (z : Nat)
    (e : SVError) (h : sv_generate_tile_list isThird pano z = .error e) :
    e = .indexError ∨ e = .zeroDivision := by
  unfold sv_generate_tile_list at h
  cases hg : pano.imageSizes.get? z with
  | none =>
    rw [hg] at h
    simp only [Bind.bind, Except.bind] at h
    injection h with h2
    exact Or.inl h2.symm
  | some s =>
    rw [hg] at h
    simp only [Bind.bind, Except.bind, Pure.pure, Except.pure] at h
    by_cases hz : pano.tileSize.x = 0 ∨ pano.tileSize.y = 0
    · rw [if_pos hz] at h
      injection h with h2
      exact Or.inr h2.symm
    · rw [if_neg hz] at h
      exact absurd h (by simp [pure, Except.pure])

/-- The batch fetch-and-compose stage can only fail with a fetch failure or
a short batch, never with InvalidState. -/
theorem equirect_error_cases (fetch : List String → Option (List Nat))
    (w h : Nat) (ts : Size) (tiles : List Tile) (e : SVError)
    (he : get_equirectangular_panorama fetch w h ts tiles = .error e) :
    e = .fetchFailure ∨ e = .shortBatch := by
  unfold get_equirectangular_panorama at he
  split at he
  · injection he with h2
    exact Or.inl h2.symm
  · split at he
    · exact absurd he (by simp)
    · injection he with h2
      exact Or.inr h2.symm

/-- C7: the grid engine fails with the InvalidState error exactly when the
panorama carries no image-size table (modelled as the empty list, covering
Python's `None` and `[]`, both falsy); otherwise validation succeeds with
the requested zoom clamped to `[0, levels - 1]`, and the pipeline generates
tiles at that clamped zoom. -/
theorem claim_C7 (isThird : String → Bool) (fetch : List String → Option (List Nat))
    (pano : SVPano) (zoom : Int) :
    (sv_validate_get_panorama_params pano zoom = .error .invalidState ↔ pano.imageSizes = [])
    ∧ (sv_get_panorama isThird fetch pano zoom = .error .invalidState ↔ pano.imageSizes = [])
    ∧ (pano.imageSizes ≠ [] →
        ∃ z : Nat, sv_validate_get_panorama_params pano zoom = .ok z
          ∧ (z : Int) = max 0 (min zoom ((pano.imageSizes.length : Int) - 1))
          ∧ z < pano.imageSizes.length
          ∧ ∃ s, pano.imageSizes.get? z = some s
            ∧ sv_get_panorama isThird fetch pano zoom =
                (sv_generate_tile_list isThird pano z) >>=
                  get_equirectangular_panorama fetch s.x s.y pano.tileSize) := by
  by_cases hE : pano.imageSizes = []
  · have hval : sv_validate_get_panorama_params pano zoom = .error .invalidState := by
      rw [sv_validate_get_panorama_params, if_pos (by simp [hE])]
    have hpipe : sv_get_panorama isThird fetch pano zoom = .error .invalidState := by
      rw [sv_get_panorama]
      simp only [hval, Bind.bind, Except.bind]
    exact ⟨by simp [hval, hE], by simp [hpipe, hE], fun hne => absurd hE hne⟩
  · have hne' : ¬ (pano.imageSizes.isEmpty = true) := by
      rw [List.isEmpty_iff]; exact hE
    set zc : Nat := (max 0 (min zoom ((pano.imageSizes.length : Int) - 1))).toNat with hzc
    have hval : sv_validate_get_panorama_params pano zoom = .ok zc := by
      rw [sv_validate_get_panorama_params, if_neg hne']
    have hlenpos : 0 < pano.imageSizes.length := List.length_pos.mpr hE
    have hcast : (zc : Int) = max 0 (min zoom ((pano.imageSizes.length : Int) - 1)) := by
      rw [hzc]
      exact Int.toNat_of_nonneg (le_max_left 0 _)
    have hlt : zc < pano.imageSizes.length := by
      have h1 : (zc : Int) ≤ (pano.imageSizes.length : Int) - 1 := by
        rw [hcast]
        have : min zoom ((pano.imageSizes.length : Int) - 1)
            ≤ (pano.imageSizes.length : Int) - 1 := min_le_right _ _
        omega
      omega
    have hget : pano.imageSizes.get? zc = some pano.imageSizes[zc] := by
      rw [List.get?_eq_getElem?]
      exact List.getElem?_eq_getElem hlt
    have hpipe : sv_get_panorama isThird fetch pano zoom =
        (sv_generate_tile_list isThird pano zc) >>=
          get_equirectangular_panorama fetch pano.imageSizes[zc].x pano.imageSizes[zc].y
            pano.tileSize := by
      rw [sv_get_panorama]
      simp only [hval, hget, Bind.bind, Except.bind, Pure.pure, Except.pure]
    refine ⟨by simp [hval, hE], ?_, fun _ => ⟨zc, hval, hcast, hlt, pano.imageSizes[zc], hget, hpipe⟩⟩
    constructor
    · intro hbad
      rw [hpipe] at hbad
      cases hgen : sv_generate_tile_list isThird pano zc with
      | error e =>
        rw [hgen] at hbad
        simp only [Bind.bind, Except.bind] at hbad
        injection hbad with h2
        rcases sv_generate_error_cases isThird pano zc e hgen with h3 | h3 <;>
          (rw [h3] at h2; exact absurd h2 (by decide))
      | ok tiles =>
        rw [hgen] at hbad
        simp only [Bind.bind, Except.bind] at hbad
        rcases equirect_error_cases fetch _ _ _ _ _ hbad with h3 | h3 <;> exact absurd h3 (by decide)
    · intro hbad
      exact absurd hbad hE

/-- C7 witness at a concrete panorama with one image level, requested
zoom 5. -/
theorem claim_C7_witness :
    (sv_validate_get_panorama_params svPanoEx 5 = .error .invalidState
        ↔ svPanoEx.imageSizes = [])
    ∧ (sv_get_panorama (fun _ => false) (fun _ => some []) svPanoEx 5 = .error .invalidState
        ↔ svPanoEx.imageSizes = [])
    ∧ (svPanoEx.imageSizes ≠ [] →
        ∃ z : Nat, sv_validate_get_panorama_params svPanoEx 5 = .ok z
          ∧ (z : Int) = max 0 (min 5 ((svPanoEx.imageSizes.length : Int) - 1))
          ∧ z < svPanoEx.imageSizes.length
          ∧ ∃ s, svPanoEx.imageSizes.get? z = some s
            ∧ sv_get_panorama (fun _ => false) (fun _ => some []) svPanoEx 5 =
                (sv_generate_tile_list (fun _ => false) svPanoEx z) >>=
                  get_equirectangular_panorama (fun _ => some []) s.x s.y svPanoEx.tileSize) :=
  claim_C7 (fun _ => false) (fun _ => some []) svPanoEx 5

/-! ## The grid tile list in closed form -/

/-- Successful run of the grid tile-list generator, in closed form. -/
theorem sv_generate_tile_list_ok (isThird : String → Bool) (pano : SVPano) (zoom : Nat)
    (s : Size) (hs : pano.imageSizes.get? zoom = some s)
    (hx : pano.tileSize.x ≠ 0) (hy : pano.tileSize.y ≠ 0) :
    sv_generate_tile_list isThird pano zoom =
      .ok ((((List.range (ceilDiv s.x pano.tileSize.x)).flatMap fun x =>
          (List.range (ceilDiv s.y pano.tileSize.y)).map fun y => (x, y)).map fun c =>
            { x := c.1, y := c.2,
              url := (if isThird pano.id then THIRD_PARTY_IMAGE_URL else IMAGE_URL)
                       pano.id c.1 c.2 zoom })) := by
  unfold sv_generate_tile_list
  rw [hs]
  simp only [Bind.bind, Except.bind, Pure.pure, Except.pure]
  rw [if_neg (by simp [hx, hy])]

/-- The column-major product of ranges, re-indexed linearly. -/
theorem range_flatMap_eq {α : Type} (f : Nat → Nat → α) (cols rows : Nat) :
    (List.range cols).flatMap (fun x => (List.range rows).map (f x))
      = (List.range (cols * rows)).map (fun n => f (n / rows) (n % rows)) := by
  induction cols with
  | zero => simp
  | succ c ih =>
    have hcr : (c + 1) * rows = c * rows + rows := by ring
    rw [List.range_succ, List.flatMap_append, ih, hcr, List.range_add, List.map_append,
      List.map_map]
    congr 1
    simp only [List.flatMap_cons, List.flatMap_nil, List.append_nil]
    apply List.map_congr_left
    intro y hy
    have hylt : y < rows := List.mem_range.mp hy
    have hrows : 0 < rows := by omega
    simp only [Function.comp_apply]
    have hd : (c * rows + y) / rows = c := by
      rw [Nat.mul_comm c rows, Nat.mul_add_div hrows, Nat.div_eq_of_lt hylt]
      omega
    have hm : (c * rows + y) % rows = y := by
      rw [Nat.mul_comm c rows, Nat.mul_add_mod, Nat.mod_eq_of_lt hylt]
    rw [hd, hm]

/-- Element `i * rows + j` of the column-major product is `f i j`. -/
theorem range_flatMap_getElem {α : Type} (f : Nat → Nat → α) (cols rows i j : Nat)
    (hi : i < cols) (hj : j < rows) :
    ((List.range cols).flatMap (fun x => (List.range rows).map (f x)))[i * rows + j]?
      = some (f i j) := by
  have hlt : i * rows + j < cols * rows := by
    have h1 : i * rows + j < (i + 1) * rows := by
      have : (i + 1) * rows = i * rows + rows := by ring
      omega
    have h2 : (i + 1) * rows ≤ cols * rows := Nat.mul_le_mul_right rows hi
    omega
  rw [range_flatMap_eq, List.getElem?_map, List.getElem?_range hlt]
  have hrows : 0 < rows := by omega
  have hd : (i * rows + j) / rows = i := by
    rw [Nat.mul_comm i rows, Nat.mul_add_div hrows, Nat.div_eq_of_lt hj]
    omega
  have hm : (i * rows + j) % rows = j := by
    rw [Nat.mul_comm i rows, Nat.mul_add_mod, Nat.mod_eq_of_lt hj]
  rw [Option.map_some', hd, hm]

/-- Length of the column-major product of ranges. -/
theorem range_flatMap_length {α : Type} (f : Nat → Nat → α) (cols rows : Nat) :
    ((List.range cols).flatMap (fun x => (List.range rows).map (f x))).length
      = cols * rows := by
  rw [range_flatMap_eq, List.length_map, List.length_range]

/-! ## C3: the grid engine's tile list -/

/-- C3: on a panorama of declared size (w, h) with positive tile size, the
grid engine produces exactly `ceil(w/tw) * ceil(h/th)` tiles, ordered with
all `y` values for `x = 0` first (tile `(i, j)` sits at index
`i * rows + j`), each carrying the template URL for its coordinates. -/
theorem claim_C3 (isThird : String → Bool) (pano : SVPano) (zoom : Nat) (s : Size)
    (hs : pano.imageSizes.get? zoom = some s)
    (hx : 0 < pano.tileSize.x) (hy : 0 < pano.tileSize.y) :
    ∃ tiles, sv_generate_tile_list isThird pano zoom = .ok tiles
      ∧ tiles.length = ceilDiv s.x pano.tileSize.x * ceilDiv s.y pano.tileSize.y
      ∧ (∀ i j, i < ceilDiv s.x pano.tileSize.x → j < ceilDiv s.y pano.tileSize.y →
          tiles[i * ceilDiv s.y pano.tileSize.y + j]? =
            some { x := i, y := j,
                   url := (if isThird pano.id then THIRD_PARTY_IMAGE_URL else IMAGE_URL)
                            pano.id i j zoom }) := by
  refine ⟨_, sv_generate_tile_list_ok isThird pano zoom s hs (by omega) (by omega), ?_, ?_⟩
  · rw [List.length_map, range_flatMap_length]
  · intro i j hi hj
    rw [List.getElem?_map, range_flatMap_getElem _ _ _ _ _ hi hj, Option.map_some']

/-- C3 witness: width 512, height 256, tile size 256×256 — exactly the two
tiles (0, 0) and (1, 0). -/
theorem claim_C3_witness :
    ∃ tiles, sv_generate_tile_list (fun _ => false) svPanoEx 0 = .ok tiles
      ∧ tiles.length = ceilDiv 512 256 * ceilDiv 256 256
      ∧ (∀ i j, i < ceilDiv 512 256 → j < ceilDiv 256 256 →
          tiles[i * ceilDiv 256 256 + j]? =
            some { x := i, y := j,
                   url := (if (fun (_ : String) => false) svPanoEx.id
                            then THIRD_PARTY_IMAGE_URL else IMAGE_URL)
                            svPanoEx.id i j 0 }) :=
  claim_C3 (fun _ => false) svPanoEx 0 ⟨512, 256⟩ rfl (by decide) (by decide)

/-! ## C6: URL template selection -/

/-- C6: every generated tile URL comes from exactly one of the two verbatim
templates, selected by the third-party predicate; both templates are
reachable (shown on a concrete panorama with a predicate returning each
value). -/
theorem claim_C6 (isThird : String → Bool) (pano : SVPano) (zoom : Nat) (tiles : List Tile)
    (hgen : sv_generate_tile_list isThird pano zoom = .ok tiles) :
    (∀ t ∈ tiles,
        t.url = if isThird pano.id then
            "https://lh3.ggpht.com/p/" ++ pano.id ++ "=x" ++ toString t.x ++ "-y"
              ++ toString t.y ++ "-z" ++ toString zoom
          else
            "https://cbk0.google.com/cbk?output=tile&panoid=" ++ pano.id ++ "&zoom="
              ++ toString zoom ++ "&x=" ++ toString t.x ++ "&y=" ++ toString t.y)
    ∧ sv_generate_tile_list (fun _ => true) svPanoEx 0
        = .ok [⟨0, 0, "https://lh3.ggpht.com/p/p=x0-y0-z0"⟩,
               ⟨1, 0, "https://lh3.ggpht.com/p/p=x1-y0-z0"⟩]
    ∧ sv_generate_tile_list (fun _ => false) svPanoEx 0
        = .ok [⟨0, 0, "https://cbk0.google.com/cbk?output=tile&panoid=p&zoom=0&x=0&y=0"⟩,
               ⟨1, 0, "https://cbk0.google.com/cbk?output=tile&panoid=p&zoom=0&x=1&y=0"⟩] := by
  refine ⟨?_, by rfl, by rfl⟩
  intro t ht
  cases hq : pano.imageSizes.get? zoom with
  | none =>
    rw [sv_generate_tile_list] at hgen
    rw [hq] at hgen
    simp only [Bind.bind, Except.bind] at hgen
    exact absurd hgen (by simp)
  | some s =>
    by_cases hzx : pano.tileSize.x = 0
    · rw [sv_generate_tile_list] at hgen
      rw [hq] at hgen
      simp only [Bind.bind, Except.bind, Pure.pure, Except.pure] at hgen
      rw [if_pos (Or.inl hzx)] at hgen
      exact absurd hgen (by simp)
    · by_cases hzy : pano.tileSize.y = 0
      · rw [sv_generate_tile_list] at hgen
        rw [hq] at hgen
        simp only [Bind.bind, Except.bind, Pure.pure, Except.pure] at hgen
        rw [if_pos (Or.inr hzy)] at hgen
        exact absurd hgen (by simp)
      · rw [sv_generate_tile_list_ok isThird pano zoom s hq hzx hzy] at hgen
        injection hgen with hts
        subst hts
        rcases List.mem_map.mp ht with ⟨c, _, hc⟩
        subst hc
        by_cases hthird : isThird pano.id
        · simp only [hthird, if_true]
          rfl
        · simp only [hthird, if_false, Bool.false_eq_true]
          rfl

/-- C6 witness at the concrete example panorama, first-party predicate. -/
theorem claim_C6_witness :
    (∀ t ∈ [(⟨0, 0, "https://cbk0.google.com/cbk?output=tile&panoid=p&zoom=0&x=0&y=0"⟩ : Tile),
            ⟨1, 0, "https://cbk0.google.com/cbk?output=tile&panoid=p&zoom=0&x=1&y=0"⟩],
        t.url = if (fun (_ : String) => false) svPanoEx.id then
            "https://lh3.ggpht.com/p/" ++ svPanoEx.id ++ "=x" ++ toString t.x ++ "-y"
              ++ toString t.y ++ "-z" ++ toString 0
          else
            "https://cbk0.google.com/cbk?output=tile&panoid=" ++ svPanoEx.id ++ "&zoom="
              ++ toString 0 ++ "&x=" ++ toString t.x ++ "&y=" ++ toString t.y)
    ∧ sv_generate_tile_list (fun _ => true) svPanoEx 0
        = .ok [⟨0, 0, "https://lh3.ggpht.com/p/p=x0-y0-z0"⟩,
               ⟨1, 0, "https://lh3.ggpht.com/p/p=x1-y0-z0"⟩]
    ∧ sv_generate_tile_list (fun _ => false) svPanoEx 0
        = .ok [⟨0, 0, "https://cbk0.google.com/cbk?output=tile&panoid=p&zoom=0&x=0&y=0"⟩,
               ⟨1, 0, "https://cbk0.google.com/cbk?output=tile&panoid=p&zoom=0&x=1&y=0"⟩] :=
  claim_C6 (fun _ => false) svPanoEx 0
    [⟨0, 0, "https://cbk0.google.com/cbk?output=tile&panoid=p&zoom=0&x=0&y=0"⟩,
     ⟨1, 0, "https://cbk0.google.com/cbk?output=tile&panoid=p&zoom=0&x=1&y=0"⟩] rfl

/-! ## C8: fetch failures abort the reconstruction -/

/-- If any face's batch fetch fails (raises or comes back short), the
download step returns an error. -/
theorem ss_download_tiles_error (fetch : List String → Option (List Nat))
    (faces : List (List SSTile)) (face : List SSTile) (hmem : face ∈ faces)
    (hbad : badFetch (fetch (face.map (fun t => t.url))) face.length) :
    ∃ e, ss_download_tiles fetch faces = .error e := by
  induction faces with
  | nil => simp at hmem
  | cons f rest ih =>
    rcases List.mem_cons.mp hmem with heq | hmem'
    · subst heq
      simp only [badFetch] at hbad
      simp only [ss_download_tiles]
      cases hf : fetch (face.map fun t => t.url) with
      | none => exact ⟨.fetchFailure, rfl⟩
      | some bufs =>
        rcases hbad with hnone | ⟨bufs2, hsome, hshort⟩
        · rw [hf] at hnone
          exact absurd hnone (by simp)
        · rw [hf] at hsome
          injection hsome with hb
          subst hb
          refine ⟨.indexError, ?_⟩
          have h2 : ¬ (face.length ≤ bufs.length) := by omega
          simp [h2]
    · simp only [ss_download_tiles]
      cases hf : fetch (f.map fun t => t.url) with
      | none => exact ⟨.fetchFailure, rfl⟩
      | some bufs =>
        by_cases hlen : f.length ≤ bufs.length
        · obtain ⟨e, he⟩ := ih hmem'
          exact ⟨e, by simp [hlen, he]⟩
        · exact ⟨.indexError, by simp [hlen]⟩

/-- C8: in both engines, a batch fetch that raises or returns fewer results
than requested URLs makes the whole panorama request fail — no partial or
degraded image is ever returned. -/
theorem claim_C8 (fetchSS : List String → Option (List Nat))
    (compose : List Img → Nat → SSOutput)
    (panoSS : SSPano) (zoomSS : Int) (facesSS : List (List SSTile)) (face : List SSTile)
    (isThird : String → Bool) (fetchSV : List String → Option (List Nat))
    (panoSV : SVPano) (zoomSV : Int) (zc : Nat) (tilesSV : List Tile)
    (hgen : ss_get_panorama_tiles panoSS zoomSS = .ok facesSS)
    (hmem : face ∈ facesSS)
    (hbadSS : badFetch (fetchSS (face.map (fun t => t.url))) face.length)
    (hval : sv_validate_get_panorama_params panoSV zoomSV = .ok zc)
    (hgenSV : sv_generate_tile_list isThird panoSV zc = .ok tilesSV)
    (hbadSV : badFetch (fetchSV (tilesSV.map (fun t => t.url))) tilesSV.length) :
    (∃ e, ss_get_panorama fetchSS compose panoSS zoomSS = .error e)
    ∧ (∃ e, sv_get_panorama isThird fetchSV panoSV zoomSV = .error e) := by
  constructor
  · obtain ⟨e, he⟩ := ss_download_tiles_error fetchSS facesSS face hmem hbadSS
    refine ⟨e, ?_⟩
    rw [ss_get_panorama]
    simp only [hgen, he, Bind.bind, Except.bind]
  · have hne : ¬ (panoSV.imageSizes.isEmpty = true) := by
      intro hE
      rw [sv_validate_get_panorama_params, if_pos hE] at hval
      exact absurd hval (by simp)
    have hzc : zc = (max 0 (min zoomSV ((panoSV.imageSizes.length : Int) - 1))).toNat := by
      rw [sv_validate_get_panorama_params, if_neg hne] at hval
      injection hval with h
      exact h.symm
    have hlenpos : 0 < panoSV.imageSizes.length := by
      rw [List.isEmpty_iff] at hne
      exact List.length_pos.mpr hne
    have hcast : (zc : Int) = max 0 (min zoomSV ((panoSV.imageSizes.length : Int) - 1)) := by
      rw [hzc]
      exact Int.toNat_of_nonneg (le_max_left 0 _)
    have hlt : zc < panoSV.imageSizes.length := by
      have h1 : (zc : Int) ≤ (panoSV.imageSizes.length : Int) - 1 := by
        rw [hcast]
        have := min_le_right zoomSV ((panoSV.imageSizes.length : Int) - 1)
        omega
      omega
    have hget : panoSV.imageSizes.get? zc = some panoSV.imageSizes[zc] := by
      rw [List.get?_eq_getElem?]
      exact List.getElem?_eq_getElem hlt
    have hee : ∃ e, get_equirectangular_panorama fetchSV panoSV.imageSizes[zc].x
        panoSV.imageSizes[zc].y panoSV.tileSize tilesSV = .error e := by
      simp only [badFetch] at hbadSV
      rcases hbadSV with hnone | ⟨bufs, hsome, hshort⟩
      · exact ⟨.fetchFailure, by rw [get_equirectangular_panorama, hnone]⟩
      · refine ⟨.shortBatch, ?_⟩
        rw [get_equirectangular_panorama, hsome]
        have h2 : ¬ (tilesSV.length ≤ bufs.length) := by omega
        simp [h2]
    obtain ⟨e, he⟩ := hee
    refine ⟨e, ?_⟩
    rw [sv_get_panorama]
    simp only [hval, hget, hgenSV, Bind.bind, Except.bind, Pure.pure, Except.pure, he]

/-- C8 witness: a fetch collaborator that always raises makes both concrete
panorama requests fail. -/
theorem claim_C8_witness :
    (∃ e, ss_get_panorama (fun _ => none) (fun l _ => .six l) ⟨0, 0⟩ 0 = .error e)
    ∧ (∃ e, sv_get_panorama (fun _ => false) (fun _ => none) svPanoEx 0 = .error e) :=
  claim_C8 (fun _ => none) (fun l _ => .six l) ⟨0, 0⟩ 0
    ((List.range 6).map (buildFace (rjust (to_base4 0) 16 '0') 0))
    (buildFace (rjust (to_base4 0) 16 '0') 0 0)
    (fun _ => false) (fun _ => none) svPanoEx 0 0
    [⟨0, 0, "https://cbk0.google.com/cbk?output=tile&panoid=p&zoom=0&x=0&y=0"⟩,
     ⟨1, 0, "https://cbk0.google.com/cbk?output=tile&panoid=p&zoom=0&x=1&y=0"⟩]
    rfl (List.mem_map_of_mem _ (by decide)) (Or.inl rfl)
    rfl rfl (Or.inl rfl)

/-! ## Base-4 encoding lemmas -/

/-- Every digit produced by the base-4 encoder is below 4. -/
theorem toBase4Digits_lt (n : Nat) : ∀ d ∈ toBase4Digits n, d < 4 := by
  induction n using toBase4Digits.induct with
  | case1 x hx =>
    intro d hd
    rw [toBase4Digits, if_pos hx] at hd
    simp at hd
    omega
  | case2 x hx ih =>
    intro d hd
    rw [toBase4Digits, if_neg hx] at hd
    rcases List.mem_append.mp hd with h | h
    · exact ih d h
    · simp at h
      omega

/-- Decoding the digit list of `n` recovers `n`. -/
theorem ofDigits_toBase4Digits (n : Nat) :
    (toBase4Digits n).foldl (fun a d => a * 4 + d) 0 = n := by
  induction n using toBase4Digits.induct with
  | case1 x hx => rw [toBase4Digits, if_pos hx]; simp
  | case2 x hx ih =>
    rw [toBase4Digits, if_neg hx, List.foldl_append, ih]
    simp [Nat.div_add_mod]
    omega

/-- `n < 4^z` (with `z ≥ 1`) has at most `z` base-4 digits. -/
theorem toBase4Digits_length_le (z : Nat) :
    ∀ n, 1 ≤ z → n < 4 ^ z → (toBase4Digits n).length ≤ z := by
  induction z with
  | zero => intro n h; omega
  | succ w ih =>
    intro n _ hn
    by_cases h4 : n < 4
    · rw [toBase4Digits, if_pos h4]
      simp
    · rw [toBase4Digits, if_neg h4, List.length_append]
      have hw : 1 ≤ w := by
        by_contra hw0
        have : w = 0 := by omega
        subst this
        simp [pow_succ] at hn
        omega
      have hdiv : n / 4 < 4 ^ w := by
        rw [Nat.div_lt_iff_lt_mul (by omega)]
        calc n < 4 ^ (w + 1) := hn
          _ = 4 ^ w * 4 := by rw [pow_succ]
      have := ih (n / 4) hw hdiv
      simp
      omega

/-- The printed base-4 string has as many characters as digits. -/
theorem to_base4_length (n : Nat) : (to_base4 n).length = (toBase4Digits n).length := by
  simp [to_base4, String.length]

/-- Length of a left-padded string whose content fits the width. -/
theorem rjust_length (s : String) (w : Nat) (c : Char) (h : s.length ≤ w) :
    (rjust s w c).length = w := by
  simp only [rjust, String.length, List.length_append, List.length_replicate]
  simp only [String.length] at h
  omega

/-- Decoding ignores leading `'0'` padding. -/
theorem foldl_decode_replicate (k : Nat) :
    (List.replicate k '0').foldl (fun a c => a * 4 + (c.toNat - 48)) 0 = 0 := by
  induction k with
  | zero => rfl
  | succ m ih =>
    rw [List.replicate_succ, List.foldl_cons]
    simpa using ih

/-- Decoding the printed digits recovers the digit fold. -/
theorem foldl_decode_digits (ds : List Nat) (hd : ∀ d ∈ ds, d < 4) :
    ∀ a, (ds.map digitChar4).foldl (fun x c => x * 4 + (c.toNat - 48)) a
      = ds.foldl (fun x d => x * 4 + d) a := by
  induction ds with
  | nil => intro a; rfl
  | cons d ds ih =>
    intro a
    rw [List.map_cons, List.foldl_cons, List.foldl_cons]
    have hd4 : d < 4 := hd d (List.mem_cons_self d ds)
    have hc : (digitChar4 d).toNat - 48 = d := by
      interval_cases d <;> decide
    rw [hc]
    exact ih (fun x hx => hd x (List.mem_cons_of_mem d hx)) _

/-- Round trip: decoding the zero-padded base-4 code of `n` gives back `n`
(the spec's round-trip property, for any pad width). -/
theorem fromBase4_rjust_to_base4 (n w : Nat) :
    fromBase4 (rjust (to_base4 n) w '0') = n := by
  simp only [fromBase4, rjust, to_base4, String.length]
  rw [List.foldl_append, foldl_decode_replicate,
    foldl_decode_digits (toBase4Digits n) (toBase4Digits_lt n) 0,
    ofDigits_toBase4Digits]

/-- Zero-padding the base-4 code (at any fixed width) is injective. -/
theorem rjust_to_base4_injective (w : Nat) :
    Function.Injective (fun n => rjust (to_base4 n) w '0') := by
  intro i j hij
  simp only at hij
  have : fromBase4 (rjust (to_base4 i) w '0') = fromBase4 (rjust (to_base4 j) w '0') := by
    rw [hij]
  rwa [fromBase4_rjust_to_base4, fromBase4_rjust_to_base4] at this

/-! ## C1: the cubemap tile list -/

/-- C1: for a panorama id below `4^16` and zoom `z ≤ 4`, the cubemap tile
list has exactly 6 faces; face `f` (0-based) carries the 2-character base-4
code of `f + 1` and exactly `4^z` tiles; the `j`-th tile of a face holds
subdivision index `j`, its URL being precisely the concatenation of the
Virtual Earth prefix, the 16-digit zero-padded base-4 panorama id, the
2-digit face code, the `z`-digit zero-padded base-4 code of `j` (empty at
zoom 0) and the `.jpg?g=13716` suffix; and the subdivision codes, in
ascending order of `j`, contain no duplicates. -/
theorem claim_C1 (panoid : Nat) (z : Nat) (hp : panoid < 4 ^ 16) (hz : z ≤ 4) :
    ∃ faces, ss_generate_tile_list panoid (z : Int) = .ok faces
      ∧ faces.length = 6
      ∧ (rjust (to_base4 panoid) 16 '0').length = 16
      ∧ (∀ f, f < 6 → ∃ face, faces[f]? = some face
          ∧ face.length = 4 ^ z
          ∧ (rjust (to_base4 (f + 1)) 2 '0').length = 2
          ∧ (∀ j, j < 4 ^ z →
              face[j]? = some
                { face := rjust (to_base4 (f + 1)) 2 '0',
                  subdiv := j,
                  url := "https://t.ssl.ak.tiles.virtualearth.net/tiles/hs"
                    ++ rjust (to_base4 panoid) 16 '0'
                    ++ (rjust (to_base4 (f + 1)) 2 '0'
                        ++ (if z < 1 then "" else rjust (to_base4 j) z '0'))
                    ++ ".jpg?g=13716" }
              ∧ (if z < 1 then "" else rjust (to_base4 j) z '0').length = z))
      ∧ ((List.range (4 ^ z)).map
          (fun j => if z < 1 then "" else rjust (to_base4 j) z '0')).Nodup := by
  have hok : ss_generate_tile_list panoid (z : Int)
      = .ok ((List.range 6).map (buildFace (rjust (to_base4 panoid) 16 '0') z)) := by
    rw [ss_generate_tile_list, if_neg (by omega), if_neg (by omega)]
    simp [Int.toNat_natCast]
  refine ⟨_, hok, by simp, ?_, ?_, ?_⟩
  · exact rjust_length _ _ _ (by
      rw [to_base4_length]
      exact toBase4Digits_length_le 16 panoid (by omega) hp)
  · intro f hf
    refine ⟨buildFace (rjust (to_base4 panoid) 16 '0') z f, ?_, ?_, ?_, ?_⟩
    · rw [List.getElem?_map, List.getElem?_range hf, Option.map_some']
    · simp [buildFace]
    · refine rjust_length _ _ _ ?_
      rw [to_base4_length]
      exact toBase4Digits_length_le 2 (f + 1) (by omega) (by omega)
    · intro j hj
      constructor
      · rw [buildFace]
        rw [List.getElem?_map, List.getElem?_range hj, Option.map_some']
      · by_cases hz0 : z < 1
        · have : z = 0 := by omega
          subst this
          simp
        · rw [if_neg hz0]
          refine rjust_length _ _ _ ?_
          rw [to_base4_length]
          exact toBase4Digits_length_le z j (by omega) hj
  · by_cases hz0 : z < 1
    · have : z = 0 := by omega
      subst this
      simp
    · have : (fun j => if z < 1 then "" else rjust (to_base4 j) z '0')
          = fun j => rjust (to_base4 j) z '0' := by
        funext j
        rw [if_neg hz0]
      rw [this]
      exact (List.nodup_range (4 ^ z)).map (rjust_to_base4_injective z)

/-- C1 witness at panorama id 27, zoom 1. -/
theorem claim_C1_witness :
    ∃ faces, ss_generate_tile_list 27 ((1 : Nat) : Int) = .ok faces
      ∧ faces.length = 6
      ∧ (rjust (to_base4 27) 16 '0').length = 16
      ∧ (∀ f, f < 6 → ∃ face, faces[f]? = some face
          ∧ face.length = 4 ^ 1
          ∧ (rjust (to_base4 (f + 1)) 2 '0').length = 2
          ∧ (∀ j, j < 4 ^ 1 →
              face[j]? = some
                { face := rjust (to_base4 (f + 1)) 2 '0',
                  subdiv := j,
                  url := "https://t.ssl.ak.tiles.virtualearth.net/tiles/hs"
                    ++ rjust (to_base4 27) 16 '0'
                    ++ (rjust (to_base4 (f + 1)) 2 '0'
                        ++ (if 1 < 1 then "" else rjust (to_base4 j) 1 '0'))
                    ++ ".jpg?g=13716" }
              ∧ (if 1 < 1 then "" else rjust (to_base4 j) 1 '0').length = 1))
      ∧ ((List.range (4 ^ 1)).map
          (fun j => if 1 < 1 then "" else rjust (to_base4 j) 1 '0')).Nodup :=
  claim_C1 27 1 (by decide) (by decide)

/-! ## Lemmas on the recursive stitch -/

/-- The pastes of `_stitch_four` contain only decoded tiles, so their depth
is zero. -/
theorem pastesDepth_pasteFour (l : List FTile) : ∀ i, pastesDepth (pasteFour i l) = 0 := by
  induction l with
  | nil => intro i; rfl
  | cons t rest ih =>
    intro i
    rw [pasteFour, pastesDepth, ih (i + 1)]
    rfl

/-- `sqrt (4^k) = 2^k`. -/
theorem sqrt_four_pow (k : Nat) : Nat.sqrt (4 ^ k) = 2 ^ k := by
  have h4 : (4 : Nat) = 2 * 2 := rfl
  rw [h4, mul_pow, Nat.sqrt_eq]

/-- One unfolding of `_stitch_face` on a face of `4^k` tiles, `k ≥ 2`: the
face splits into its four contiguous quarters, each recursively stitched and
pasted top-left, top-right, bottom-left, bottom-right. -/
theorem stitch_face_step (face : List FTile) (k : Nat) (hk : 2 ≤ k)
    (hlen : face.length = 4 ^ k) :
    _stitch_face face = .canvas (2 ^ (k - 1) * TILE_SIZE * 2) (2 ^ (k - 1) * TILE_SIZE * 2)
      (.cons (_stitch_face (face.take (4 ^ (k - 1)))) 0 0
      (.cons (_stitch_face ((face.drop (4 ^ (k - 1))).take (4 ^ (k - 1))))
        (2 ^ (k - 1) * TILE_SIZE) 0
      (.cons (_stitch_face (((face.drop (4 ^ (k - 1))).drop (4 ^ (k - 1))).take (4 ^ (k - 1))))
        0 (2 ^ (k - 1) * TILE_SIZE)
      (.cons (_stitch_face (((face.drop (4 ^ (k - 1))).drop (4 ^ (k - 1))).drop (4 ^ (k - 1))))
        (2 ^ (k - 1) * TILE_SIZE) (2 ^ (k - 1) * TILE_SIZE) .nil)))) := by
  have hgt : ¬ (face.length ≤ 4) := by
    rw [hlen]
    have h16 : (4 : Nat) ^ 2 ≤ 4 ^ k := Nat.pow_le_pow_right (by omega) hk
    norm_num at h16
    omega
  have hs : 0 < 4 ^ (k - 1) := Nat.pos_pow_of_pos _ (by omega)
  have hpow : (4 : Nat) ^ k = 4 ^ (k - 1) * 4 := by
    conv_lhs => rw [show k = (k - 1) + 1 by omega]
    rw [pow_succ]
  have hpow2 : (2 : Nat) ^ k = 2 ^ (k - 1) * 2 := by
    conv_lhs => rw [show k = (k - 1) + 1 by omega]
    rw [pow_succ]
  have hq : (4 : Nat) ^ k / 4 = 4 ^ (k - 1) := by
    rw [hpow]
    exact Nat.mul_div_cancel _ (by omega)
  have hlen4 : face.length = 4 * 4 ^ (k - 1) := by
    rw [hlen, hpow]
    ring
  have hquad := split_list_quad face (4 ^ (k - 1)) hs hlen4
  have hdiv2 : 2 ^ k / 2 = 2 ^ (k - 1) := by
    rw [hpow2]
    exact Nat.mul_div_cancel _ (by omega)
  rw [_stitch_face, if_neg hgt]
  simp only [hlen, sqrt_four_pow, hdiv2, hq, hquad,
    List.getD_cons_zero, List.getD_cons_succ]

/-- Side length and recursion depth of the stitched face of `4^k` tiles. -/
theorem stitch_face_size_depth (k : Nat) :
    1 ≤ k → ∀ face : List FTile, face.length = 4 ^ k →
      imgWidth (_stitch_face face) = TILE_SIZE * 2 ^ k
      ∧ imgHeight (_stitch_face face) = TILE_SIZE * 2 ^ k
      ∧ imgDepth (_stitch_face face) = k := by
  induction k with
  | zero => omega
  | succ w ih =>
    intro _ face hlen
    by_cases hw : w = 0
    · subst hw
      have hle : face.length ≤ 4 := by rw [hlen]; norm_num
      rw [_stitch_face, if_pos hle, _stitch_four]
      refine ⟨rfl, rfl, ?_⟩
      rw [imgDepth, pastesDepth_pasteFour]
    · have hw1 : 1 ≤ w := by omega
      have hstep := stitch_face_step face (w + 1) (by omega) hlen
      have hwsub : w + 1 - 1 = w := by omega
      rw [hwsub] at hstep
      have hpowle : 4 ^ w ≤ face.length := by
        rw [hlen, pow_succ]
        have := Nat.pos_pow_of_pos w (show 0 < 4 by omega)
        omega
      have hlen1 : (face.take (4 ^ w)).length = 4 ^ w := by
        rw [List.length_take]
        omega
      have hlen2 : ((face.drop (4 ^ w)).take (4 ^ w)).length = 4 ^ w := by
        rw [List.length_take, List.length_drop, hlen, pow_succ]
        have := Nat.pos_pow_of_pos w (show 0 < 4 by omega)
        omega
      have hlen3 : (((face.drop (4 ^ w)).drop (4 ^ w)).take (4 ^ w)).length = 4 ^ w := by
        rw [List.length_take, List.length_drop, List.length_drop, hlen, pow_succ]
        have := Nat.pos_pow_of_pos w (show 0 < 4 by omega)
        omega
      have hlen4 : (((face.drop (4 ^ w)).drop (4 ^ w)).drop (4 ^ w)).length = 4 ^ w := by
        rw [List.length_drop, List.length_drop, List.length_drop, hlen, pow_succ]
        have := Nat.pos_pow_of_pos w (show 0 < 4 by omega)
        omega
      have ih1 := ih hw1 _ hlen1
      have ih2 := ih hw1 _ hlen2
      have ih3 := ih hw1 _ hlen3
      have ih4 := ih hw1 _ hlen4
      rw [hstep]
      refine ⟨?_, ?_, ?_⟩
      · rw [imgWidth, pow_succ]; ring
      · rw [imgHeight, pow_succ]; ring
      · rw [imgDepth, pastesDepth, pastesDepth, pastesDepth, pastesDepth,
          ih1.2.2, ih2.2.2, ih3.2.2, ih4.2.2]
        simp [imgDepth, pastesDepth]
        omega

/-- A list of length 4 is a literal four-element list. -/
theorem list_len_four {γ : Type} (l : List γ) (h : l.length = 4) :
    ∃ a b c d, l = [a, b, c, d] := by
  obtain _ | ⟨a, l⟩ := l
  · simp at h
  obtain _ | ⟨b, l⟩ := l
  · simp at h
  obtain _ | ⟨c, l⟩ := l
  · simp at h
  obtain _ | ⟨d, l⟩ := l
  · simp at h
  obtain _ | ⟨e, l⟩ := l
  · exact ⟨a, b, c, d, rfl⟩
  · simp at h

/-- The 2×2 base case: tile 0 top-left, 1 top-right, 2 bottom-left,
3 bottom-right at `TILE_SIZE` granularity. -/
theorem stitch_face_four (t0 t1 t2 t3 : FTile) :
    _stitch_face [t0, t1, t2, t3] = .canvas (TILE_SIZE * 2) (TILE_SIZE * 2)
      (.cons (.raw t0.image) 0 0
      (.cons (.raw t1.image) TILE_SIZE 0
      (.cons (.raw t2.image) 0 TILE_SIZE
      (.cons (.raw t3.image) TILE_SIZE TILE_SIZE .nil)))) := by
  rw [_stitch_face, if_pos (by simp)]
  rw [_stitch_four]
  simp [pasteFour]

/-! ## C2: the recursive face stitch -/

/-- C2: a face of `4^k` fetched tiles (`k ≥ 1`) stitches to a square canvas
of side `TILE_SIZE * 2^k` with recursion depth exactly `k`; for `k ≥ 2` the
face is split into 4 equal contiguous sublists of length `4^(k-1)`, each
recursively stitched and pasted in top-left / top-right / bottom-left /
bottom-right order; at the 4-tile base case tile 0 goes top-left, tile 1
top-right, tile 2 bottom-left and tile 3 bottom-right at `TILE_SIZE`
granularity. -/
theorem claim_C2 (face : List FTile) (k : Nat) (hk : 1 ≤ k) (hlen : face.length = 4 ^ k) :
    (imgWidth (_stitch_face face) = TILE_SIZE * 2 ^ k
      ∧ imgHeight (_stitch_face face) = TILE_SIZE * 2 ^ k)
    ∧ imgDepth (_stitch_face face) = k
    ∧ (k = 1 → ∃ t0 t1 t2 t3, face = [t0, t1, t2, t3]
        ∧ _stitch_face face = .canvas (TILE_SIZE * 2) (TILE_SIZE * 2)
            (.cons (.raw t0.image) 0 0
            (.cons (.raw t1.image) TILE_SIZE 0
            (.cons (.raw t2.image) 0 TILE_SIZE
            (.cons (.raw t3.image) TILE_SIZE TILE_SIZE .nil)))))
    ∧ (2 ≤ k →
        _split_list face (face.length / 4)
          = [face.take (4 ^ (k - 1)),
             (face.drop (4 ^ (k - 1))).take (4 ^ (k - 1)),
             ((face.drop (4 ^ (k - 1))).drop (4 ^ (k - 1))).take (4 ^ (k - 1)),
             ((face.drop (4 ^ (k - 1))).drop (4 ^ (k - 1))).drop (4 ^ (k - 1))]
        ∧ (∀ c ∈ _split_list face (face.length / 4), c.length = 4 ^ (k - 1))
        ∧ _stitch_face face = .canvas (TILE_SIZE * 2 ^ k) (TILE_SIZE * 2 ^ k)
            (.cons (_stitch_face (face.take (4 ^ (k - 1)))) 0 0
            (.cons (_stitch_face ((face.drop (4 ^ (k - 1))).take (4 ^ (k - 1))))
              (TILE_SIZE * 2 ^ (k - 1)) 0
            (.cons (_stitch_face
                (((face.drop (4 ^ (k - 1))).drop (4 ^ (k - 1))).take (4 ^ (k - 1))))
              0 (TILE_SIZE * 2 ^ (k - 1))
            (.cons (_stitch_face
                (((face.drop (4 ^ (k - 1))).drop (4 ^ (k - 1))).drop (4 ^ (k - 1))))
              (TILE_SIZE * 2 ^ (k - 1)) (TILE_SIZE * 2 ^ (k - 1)) .nil))))) := by
  obtain ⟨hW, hH, hD⟩ := stitch_face_size_depth k hk face hlen
  refine ⟨⟨hW, hH⟩, hD, ?_, ?_⟩
  · intro hk1
    subst hk1
    obtain ⟨t0, t1, t2, t3, hfc⟩ := list_len_four face (by rw [hlen]; norm_num)
    subst hfc
    exact ⟨t0, t1, t2, t3, rfl, stitch_face_four t0 t1 t2 t3⟩
  · intro hk2
    have hs : 0 < 4 ^ (k - 1) := Nat.pos_pow_of_pos _ (by omega)
    have hpow : (4 : Nat) ^ k = 4 ^ (k - 1) * 4 := by
      conv_lhs => rw [show k = (k - 1) + 1 by omega]
      rw [pow_succ]
    have hpow2 : (2 : Nat) ^ k = 2 ^ (k - 1) * 2 := by
      conv_lhs => rw [show k = (k - 1) + 1 by omega]
      rw [pow_succ]
    have hq : face.length / 4 = 4 ^ (k - 1) := by
      rw [hlen, hpow]
      exact Nat.mul_div_cancel _ (by omega)
    have hlen4 : face.length = 4 * 4 ^ (k - 1) := by
      rw [hlen, hpow]
      ring
    have hquad := split_list_quad face (4 ^ (k - 1)) hs hlen4
    have hcomm : 2 ^ (k - 1) * TILE_SIZE * 2 = TILE_SIZE * 2 ^ k := by
      rw [hpow2]
      ring
    have hcomm2 : 2 ^ (k - 1) * TILE_SIZE = TILE_SIZE * 2 ^ (k - 1) := by ring
    have hstep := stitch_face_step face k hk2 hlen
    rw [hcomm, hcomm2] at hstep
    refine ⟨by rw [hq]; exact hquad, ?_, hstep⟩
    intro c hc
    rw [hq, hquad] at hc
    simp only [List.mem_cons, List.not_mem_nil, or_false] at hc
    have e1 : (face.drop (4 ^ (k - 1))).length = 3 * 4 ^ (k - 1) := by
      rw [List.length_drop]
      omega
    have e2 : ((face.drop (4 ^ (k - 1))).drop (4 ^ (k - 1))).length = 2 * 4 ^ (k - 1) := by
      rw [List.length_drop, e1]
      omega
    rcases hc with hc | hc | hc | hc
    · subst hc; rw [List.length_take]; omega
    · subst hc; rw [List.length_take, e1]; omega
    · subst hc; rw [List.length_take, e2]; omega
    · subst hc; rw [List.length_drop, e2]; omega

/-- C2 witness: a concrete 4-tile face (`k = 1`). -/
theorem claim_C2_witness :
    (imgWidth (_stitch_face [⟨"01", 0, "", 10⟩, ⟨"01", 1, "", 11⟩,
        ⟨"01", 2, "", 12⟩, ⟨"01", 3, "", 13⟩]) = TILE_SIZE * 2 ^ 1
      ∧ imgHeight (_stitch_face [⟨"01", 0, "", 10⟩, ⟨"01", 1, "", 11⟩,
        ⟨"01", 2, "", 12⟩, ⟨"01", 3, "", 13⟩]) = TILE_SIZE * 2 ^ 1)
    ∧ imgDepth (_stitch_face [⟨"01", 0, "", 10⟩, ⟨"01", 1, "", 11⟩,
        ⟨"01", 2, "", 12⟩, ⟨"01", 3, "", 13⟩]) = 1
    ∧ (1 = 1 → ∃ t0 t1 t2 t3,
        ([⟨"01", 0, "", 10⟩, ⟨"01", 1, "", 11⟩,
          ⟨"01", 2, "", 12⟩, ⟨"01", 3, "", 13⟩] : List FTile) = [t0, t1, t2, t3]
        ∧ _stitch_face [⟨"01", 0, "", 10⟩, ⟨"01", 1, "", 11⟩,
            ⟨"01", 2, "", 12⟩, ⟨"01", 3, "", 13⟩] = .canvas (TILE_SIZE * 2) (TILE_SIZE * 2)
            (.cons (.raw t0.image) 0 0
            (.cons (.raw t1.image) TILE_SIZE 0
            (.cons (.raw t2.image) 0 TILE_SIZE
            (.cons (.raw t3.image) TILE_SIZE TILE_SIZE .nil)))))
    ∧ (2 ≤ 1 →
        _split_list [(⟨"01", 0, "", 10⟩ : FTile), ⟨"01", 1, "", 11⟩,
            ⟨"01", 2, "", 12⟩, ⟨"01", 3, "", 13⟩]
            (([(⟨"01", 0, "", 10⟩ : FTile), ⟨"01", 1, "", 11⟩,
              ⟨"01", 2, "", 12⟩, ⟨"01", 3, "", 13⟩] : List FTile).length / 4)
          = [([(⟨"01", 0, "", 10⟩ : FTile), ⟨"01", 1, "", 11⟩,
              ⟨"01", 2, "", 12⟩, ⟨"01", 3, "", 13⟩] : List FTile).take (4 ^ (1 - 1)),
             (([(⟨"01", 0, "", 10⟩ : FTile), ⟨"01", 1, "", 11⟩,
              ⟨"01", 2, "", 12⟩, ⟨"01", 3, "", 13⟩] : List FTile).drop (4 ^ (1 - 1))).take
                (4 ^ (1 - 1)),
             ((([(⟨"01", 0, "", 10⟩ : FTile), ⟨"01", 1, "", 11⟩,
              ⟨"01", 2, "", 12⟩, ⟨"01", 3, "", 13⟩] : List FTile).drop (4 ^ (1 - 1))).drop
                (4 ^ (1 - 1))).take (4 ^ (1 - 1)),
             ((([(⟨"01", 0, "", 10⟩ : FTile), ⟨"01", 1, "", 11⟩,
              ⟨"01", 2, "", 12⟩, ⟨"01", 3, "", 13⟩] : List FTile).drop (4 ^ (1 - 1))).drop
                (4 ^ (1 - 1))).drop (4 ^ (1 - 1))]
        ∧ (∀ c ∈ _split_list [(⟨"01", 0, "", 10⟩ : FTile), ⟨"01", 1, "", 11⟩,
              ⟨"01", 2, "", 12⟩, ⟨"01", 3, "", 13⟩]
            (([(⟨"01", 0, "", 10⟩ : FTile), ⟨"01", 1, "", 11⟩,
              ⟨"01", 2, "", 12⟩, ⟨"01", 3, "", 13⟩] : List FTile).length / 4),
            c.length = 4 ^ (1 - 1))
        ∧ _stitch_face [(⟨"01", 0, "", 10⟩ : FTile), ⟨"01", 1, "", 11⟩,
              ⟨"01", 2, "", 12⟩, ⟨"01", 3, "", 13⟩]
            = .canvas (TILE_SIZE * 2 ^ 1) (TILE_SIZE * 2 ^ 1)
            (.cons (_stitch_face (([(⟨"01", 0, "", 10⟩ : FTile), ⟨"01", 1, "", 11⟩,
                ⟨"01", 2, "", 12⟩, ⟨"01", 3, "", 13⟩] : List FTile).take (4 ^ (1 - 1)))) 0 0
            (.cons (_stitch_face ((([(⟨"01", 0, "", 10⟩ : FTile), ⟨"01", 1, "", 11⟩,
                ⟨"01", 2, "", 12⟩, ⟨"01", 3, "", 13⟩] : List FTile).drop (4 ^ (1 - 1))).take
                  (4 ^ (1 - 1))))
              (TILE_SIZE * 2 ^ (1 - 1)) 0
            (.cons (_stitch_face (((([(⟨"01", 0, "", 10⟩ : FTile), ⟨"01", 1, "", 11⟩,
                ⟨"01", 2, "", 12⟩, ⟨"01", 3, "", 13⟩] : List FTile).drop (4 ^ (1 - 1))).drop
                  (4 ^ (1 - 1))).take (4 ^ (1 - 1))))
              0 (TILE_SIZE * 2 ^ (1 - 1))
            (.cons (_stitch_face (((([(⟨"01", 0, "", 10⟩ : FTile), ⟨"01", 1, "", 11⟩,
                ⟨"01", 2, "", 12⟩, ⟨"01", 3, "", 13⟩] : List FTile).drop (4 ^ (1 - 1))).drop
                  (4 ^ (1 - 1))).drop (4 ^ (1 - 1))))
              (TILE_SIZE * 2 ^ (1 - 1)) (TILE_SIZE * 2 ^ (1 - 1)) .nil))))) :=
  claim_C2 [⟨"01", 0, "", 10⟩, ⟨"01", 1, "", 11⟩, ⟨"01", 2, "", 12⟩, ⟨"01", 3, "", 13⟩]
    1 (by decide) (by decide)

end Streetlevel
